import Mathlib

set_option autoImplicit false

namespace Craby

/-!
Shallow embedding of the craby repository's schema-compiler and runtime-bridge
behavior, translated from the sources under consideration:
`src/examples/craby-test/ios/include/CrabySignals.h` (native signal registry),
`src/unnamed/part_008` (JS `NativeModuleRegistry` with the Android JNI
preparation step), and — for the parts of the runtime bridge and generator
whose Rust/C++ implementation is not present in the source tree — models
written from the specification's own words, each marked in its doc comment.
-/

/-! ## Native signal registry (`CrabySignals.h`, `SignalManager`) -/

/-- A `std::unordered_map<uintptr_t, Delegate>` modelled as a partial map from
instance id to an opaque delegate token (the delegate's identity; what matters
for the registry semantics is which delegate, if any, is invoked). -/
def DMap : Type := Nat → Option Nat

/-- `std::unordered_map::insert_or_assign`: stores the value under the key,
replacing any previous value. -/
def DMap.insertOrAssign (m : DMap) (id : Nat) (d : Nat) : DMap :=
  fun k => if k = id then some d else m k

/-- `std::unordered_map::erase`: removes the key's entry if present. -/
def DMap.erase (m : DMap) (id : Nat) : DMap :=
  fun k => if k = id then none else m k

/-- The six delegate maps of `SignalManager` in `CrabySignals.h`:
`delegates_`, `delegates_with_value_`, `delegates_array_number_`,
`delegates_array_string_`, `delegates_array_object_`, `delegates_object_`. -/
structure SignalManager where
  delegates : DMap
  delegates_with_value : DMap
  delegates_array_number : DMap
  delegates_array_string : DMap
  delegates_array_object : DMap
  delegates_object : DMap

def emptyDMap : DMap := fun _ => none

/-- The default-constructed singleton: all six maps empty. -/
def SignalManager.empty : SignalManager :=
  ⟨emptyDMap, emptyDMap, emptyDMap, emptyDMap, emptyDMap, emptyDMap⟩

/-- `SignalManager::registerDelegate`: `delegates_.insert_or_assign(id, delegate)`. -/
def registerDelegate (s : SignalManager) (id : Nat) (d : Nat) : SignalManager :=
  { s with delegates := s.delegates.insertOrAssign id d }

/-- `SignalManager::registerDelegateWithValue`: `insert_or_assign` on the five
payload-carrying maps at the same id. -/
def registerDelegateWithValue (s : SignalManager) (id : Nat)
    (dv dan das dao dob : Nat) : SignalManager :=
  { s with
    delegates_with_value := s.delegates_with_value.insertOrAssign id dv
    delegates_array_number := s.delegates_array_number.insertOrAssign id dan
    delegates_array_string := s.delegates_array_string.insertOrAssign id das
    delegates_array_object := s.delegates_array_object.insertOrAssign id dao
    delegates_object := s.delegates_object.insertOrAssign id dob }

/-- `SignalManager::unregisterDelegate`: `erase(id)` on all six maps. -/
def unregisterDelegate (s : SignalManager) (id : Nat) : SignalManager :=
  { delegates := s.delegates.erase id
    delegates_with_value := s.delegates_with_value.erase id
    delegates_array_number := s.delegates_array_number.erase id
    delegates_array_string := s.delegates_array_string.erase id
    delegates_array_object := s.delegates_array_object.erase id
    delegates_object := s.delegates_object.erase id }

/-- `SignalManager::emit`: finds the delegate for `id` in `delegates_` and
invokes it if found; the result is the token of the delegate invoked
(`none` = no delegate invoked). -/
def emit (s : SignalManager) (id : Nat) : Option Nat := s.delegates id

/-- `SignalManager::emit_array_number`: lookup in `delegates_array_number_`. -/
def emit_array_number (s : SignalManager) (id : Nat) : Option Nat :=
  s.delegates_array_number id

/-- `SignalManager::emit_array_string`: lookup in `delegates_array_string_`. -/
def emit_array_string (s : SignalManager) (id : Nat) : Option Nat :=
  s.delegates_array_string id

/-- `SignalManager::emit_array_object`: lookup in `delegates_array_object_`. -/
def emit_array_object (s : SignalManager) (id : Nat) : Option Nat :=
  s.delegates_array_object id

/-- `SignalManager::emit_object`: lookup in `delegates_object_`. -/
def emit_object (s : SignalManager) (id : Nat) : Option Nat :=
  s.delegates_object id

/-- Events observable during one `emit` call: taking the mutex, invoking a
delegate, releasing the mutex. -/
inductive EmitEv where
  | acquire
  | invoke (d : Nat) (name : String)
  | release
deriving DecidableEq

def EmitEv.isInvokeEv : EmitEv → Bool
  | EmitEv.invoke _ _ => true
  | _ => false

/-- The event trace of `SignalManager::emit(id, name)` as written in
`CrabySignals.h`: `std::lock_guard` acquires the mutex at function entry, the
delegate (when found) is invoked in the body, and the guard releases the mutex
only at scope exit — after the invocation returns. -/
def emitTrace (s : SignalManager) (id : Nat) (name : String) : List EmitEv :=
  [EmitEv.acquire] ++
    (match s.delegates id with
     | some d => [EmitEv.invoke d name]
     | none => []) ++
    [EmitEv.release]

/-- Scans a trace with a lock-depth counter; `true` iff some delegate
invocation happens while the lock is held (depth positive). -/
def invokesWhileLocked : List EmitEv → Nat → Bool
  | [], _ => false
  | EmitEv.acquire :: rest, n => invokesWhileLocked rest (n + 1)
  | EmitEv.release :: rest, n => invokesWhileLocked rest (n - 1)
  | EmitEv.invoke _ _ :: rest, n => (n != 0) || invokesWhileLocked rest n

/-- A concrete registry state with a delegate (token 7) registered for
instance id 1. -/
def cexManager : SignalManager := registerDelegate SignalManager.empty 1 7

/-! ## `NativeModuleRegistry` (`src/unnamed/part_008`) -/

/-- The host environment seen by the JS module registry: `Platform.OS` and the
TurboModule registry's contents (module instances as opaque tokens). -/
structure TurboEnv where
  os : String
  modules : String → Option Nat

/-- `TurboModuleRegistry.get(name)`: the instance (or `none`), paired with the
list of module names this call requested from the TurboModule registry. -/
def turboGet (env : TurboEnv) (name : String) : Option Nat × List String :=
  (env.modules name, [name])

/-- `TurboModuleRegistry.getEnforcing(name)`: the instance, or a thrown error
when the module is not registered; paired with the names requested. -/
def turboGetEnforcing (env : TurboEnv) (name : String) :
    Except String Nat × List String :=
  (match env.modules name with
   | some m => Except.ok m
   | none => Except.error ("TurboModuleRegistry.getEnforcing(...): " ++ name
       ++ " could not be found."),
   [name])

/-- `prepareJNI(moduleName)`: returns early on every non-Android platform;
on Android requests the dummy module from the TurboModule registry. The
result is the list of registry requests the step performs. -/
def prepareJNI (env : TurboEnv) (moduleName : String) : List String :=
  if env.os ≠ "android" then []
  else (turboGet env ("__craby" ++ moduleName ++ "_JNI_prepare__")).2

/-- `NativeModuleRegistry.get`: runs `prepareJNI(moduleName)` first, then
returns `TurboModuleRegistry.get(moduleName)` unchanged; the second component
accumulates every registry request in order. -/
def NativeModuleRegistry.get (env : TurboEnv) (moduleName : String) :
    Option Nat × List String :=
  let prep := prepareJNI env moduleName
  let r := turboGet env moduleName
  (r.1, prep ++ r.2)

/-- `NativeModuleRegistry.getEnforcing`: runs `prepareJNI(moduleName)` first,
then returns `TurboModuleRegistry.getEnforcing(moduleName)` unchanged. -/
def NativeModuleRegistry.getEnforcing (env : TurboEnv) (moduleName : String) :
    Except String Nat × List String :=
  let prep := prepareJNI env moduleName
  let r := turboGetEnforcing env moduleName
  (r.1, prep ++ r.2)

/-! ## PendingCall state machine and fault translation

The Rust/C++ runtime bridge that executes methods and completes promises is
not part of the source tree under consideration (only its TS callers, the
test suites and the docs are), so the pieces below are modelled from the
spec's words and checked against the behavior the test suites demand. -/

/-- Modelled from the spec: the outcome of running a method implementation —
a normal value or an unrecoverable fault carrying an error message. The
Rust implementation side is not in the source tree. -/
inductive ImplOutcome where
  | ok (v : Nat)
  | fault (msg : String)
deriving DecidableEq

/-- Modelled from the spec: the states of one PendingCall,
`Issued → Running → {Resolved | Rejected}`. -/
inductive CallState where
  | issued
  | running
  | resolved (v : Nat)
  | rejected (msg : String)
deriving DecidableEq

def CallState.isTerminal : CallState → Bool
  | CallState.resolved _ => true
  | CallState.rejected _ => true
  | _ => false

/-- Modelled from the spec: one transition of the PendingCall machine. A call
is handed to a worker (`issued → running`), the worker's outcome produces the
terminal state, and terminal states have no successor. -/
def CallState.step : CallState → ImplOutcome → Option CallState
  | CallState.issued, _ => some CallState.running
  | CallState.running, ImplOutcome.ok v => some (CallState.resolved v)
  | CallState.running, ImplOutcome.fault m => some (CallState.rejected m)
  | CallState.resolved _, _ => none
  | CallState.rejected _, _ => none

/-- Runs the machine until no transition applies (fuel-bounded; the machine
has depth two from `issued`). -/
def runCall : Nat → CallState → ImplOutcome → List CallState
  | 0, s, _ => [s]
  | fuel + 1, s, r =>
    match CallState.step s r with
    | none => [s]
    | some s2 => s :: runCall fuel s2 r

/-- The full state trace of one asynchronous invocation. -/
def callTrace (r : ImplOutcome) : List CallState :=
  runCall 3 CallState.issued r

/-- The terminal events delivered back to the calling boundary. -/
def deliveredTerminals (r : ImplOutcome) : List CallState :=
  (callTrace r).filter CallState.isTerminal

def hasResolvedIn (l : List CallState) : Bool :=
  l.any fun s => match s with | CallState.resolved _ => true | _ => false

def hasRejectedIn (l : List CallState) : Bool :=
  l.any fun s => match s with | CallState.rejected _ => true | _ => false

/-- Modelled from the spec: the synchronous call boundary. `outcome` is what
the call site observes (`Except.error` = a host-runtime exception thrown at
the call site), `catches` counts how many times the boundary's catch point
converted a fault. -/
structure SyncResult where
  outcome : Except String Nat
  catches : Nat

/-- Modelled from the spec: a synchronous method runs on the caller's thread;
a fault is caught exactly once at the boundary and re-raised as a host
exception; a normal value passes through uncaught. -/
def runSyncMethod (r : ImplOutcome) : SyncResult :=
  match r with
  | ImplOutcome.ok v => ⟨Except.ok v, 0⟩
  | ImplOutcome.fault m => ⟨Except.error m, 1⟩

/-- Modelled from the spec: what the caller of a deferred-result method
observes. `thrownAtCaller` is an exception thrown at the call site (the spec
requires none), `delivered` the non-thrown terminal values handed to the
caller's async-result handling, `catches` the boundary catch count. -/
structure AsyncResult where
  thrownAtCaller : Option String
  delivered : List (Except String Nat)
  catches : Nat

/-- Modelled from the spec: a deferred-result method drives its PendingCall
through `callTrace`; each terminal state is delivered as a normal value or a
normal (non-thrown) failure value, and a fault is caught exactly once at the
asynchronous completion catch point. -/
def runAsyncMethod (r : ImplOutcome) : AsyncResult :=
  { thrownAtCaller := none
    delivered := (callTrace r).filterMap fun s =>
      match s with
      | CallState.resolved v => some (Except.ok v)
      | CallState.rejected m => some (Except.error m)
      | _ => none
    catches := match r with | ImplOutcome.fault _ => 1 | _ => 0 }

/-! ## JS-side notification listener registry

The generated JS subscribe/dispose code (the fan-out side of signals) is not
in the source tree; only its C++ per-instance delegate (`CrabySignals.h`),
the docs and the test suites are. Modelled from the spec. -/

/-- Modelled from the spec: the listener set for one
`(ModuleInstance id, notification name)` key. Listeners are kept in
registration order; each registration is identified by a fresh disposer
token; callbacks are opaque tokens. -/
structure ListenerReg where
  nextToken : Nat
  listeners : List (Nat × Nat)
deriving DecidableEq

def ListenerReg.empty : ListenerReg := ⟨0, []⟩

/-- Modelled from the spec: listener registration appends the callback to the
set, in registration order, and returns a disposer token. -/
def subscribe (r : ListenerReg) (cb : Nat) : ListenerReg × Nat :=
  (⟨r.nextToken + 1, r.listeners ++ [(r.nextToken, cb)]⟩, r.nextToken)

/-- Modelled from the spec: the disposer removes its registration from the
set; disposing an already-removed registration changes nothing. -/
def dispose (r : ListenerReg) (tok : Nat) : ListenerReg :=
  ⟨r.nextToken, r.listeners.filter fun p => p.1 != tok⟩

/-- Modelled from the spec: emitting the notification invokes each currently
registered callback once, in registration order; the result is the invocation
sequence. -/
def emitToListeners (r : ListenerReg) : List Nat :=
  r.listeners.map Prod.snd

/-- Registration of three listeners (callbacks 10, 20, 30) on one
notification, as in the spec's fan-out property. -/
def fanoutStep1 : ListenerReg × Nat := subscribe ListenerReg.empty 10
def fanoutStep2 : ListenerReg × Nat := subscribe fanoutStep1.1 20
def fanoutStep3 : ListenerReg × Nat := subscribe fanoutStep2.1 30

/-- The registry after disposing the second of the three listeners. -/
def fanoutDisposed : ListenerReg := dispose fanoutStep3.1 fanoutStep2.2

/-! ## Identifier normalization (Type Mapping Engine)

The Rust resolution engine is not in the source tree; modelled from the
spec: every method, field and notification name is converted to canonical
snake-case regardless of source casing, the original spelling is kept for
the calling boundary, and two distinct source names normalizing to the same
canonical identifier raise a collision diagnostic. -/

/-- Modelled from the spec: snake-case conversion over the identifier's
characters. An uppercase letter is lowercased; unless it starts the
identifier, an underscore is inserted before it. -/
def snakeChars : List Char → Bool → List Char
  | [], _ => []
  | c :: rest, first =>
    if c.isUpper then
      (if first then [c.toLower] else ['_', c.toLower]) ++ snakeChars rest false
    else
      c :: snakeChars rest false

/-- Modelled from the spec: canonical snake-case normalization of a source
identifier (camel, Pascal and snake casings all map to the same result). -/
def toSnakeCase (s : String) : String := String.mk (snakeChars s.data true)

/-- Finds a pair of distinct source names whose normalizations coincide, in a
list of (source name, canonical name) pairs. -/
def findCollision : List (String × String) → Option (String × String)
  | [] => none
  | (src, norm) :: rest =>
    match rest.find? (fun p => p.2 == norm && p.1 != src) with
    | some other => some (src, other.1)
    | none => findCollision rest

/-- Modelled from the spec: resolving one scope's source names. On success
every name keeps its original source-facing spelling next to its canonical
snake-case identifier; two distinct source names normalizing identically
fail with a collision diagnostic. -/
def resolveScope (names : List String) : Except String (List (String × String)) :=
  match findCollision (names.map fun n => (n, toSnakeCase n)) with
  | some (a, b) =>
    Except.error ("naming collision: " ++ a ++ " and " ++ b
      ++ " normalize to the same identifier")
  | none => Except.ok (names.map fun n => (n, toSnakeCase n))

/-! ## Enum decoding at the boundary

The generated marshalling code is not in the source tree; modelled from the
spec: decoding a value that is not one of the enum's declared variant values
always fails with a typed decoding error and never coerces to a default
variant. -/

/-- Modelled from the spec: boundary decode of a numeric-backed enum value
against the declared variant values. -/
def decodeNumericEnum (variants : List Int) (v : Int) : Except String Int :=
  if v ∈ variants then Except.ok v
  else Except.error ("enum decode error: " ++ toString v
    ++ " is not a declared variant value")

/-- Modelled from the spec: boundary decode of a string-backed enum value
against the declared variant values. -/
def decodeStringEnum (variants : List String) (v : String) : Except String String :=
  if v ∈ variants then Except.ok v
  else Except.error ("enum decode error: " ++ v
    ++ " is not a declared variant value")

/-! ## Drift Guard

The Rust drift guard is not in the source tree; modelled from the spec: a
stable structural fingerprint of the resolved model is persisted at
generation time and recomputed before a build; mismatch blocks the build
with a diagnostic naming the out-of-date module. The fingerprint is modelled
as the structural content itself (a collision-free structural hash). -/

/-- Modelled from the spec: a module schema as freshly parsed at build time —
the module's name and its structural content. -/
structure Schema where
  moduleName : String
  content : List (String × String)
deriving DecidableEq

/-- Modelled from the spec: the stable structural fingerprint of a schema. -/
def fingerprintOf (s : Schema) : List (String × String) := s.content

/-- Modelled from the spec: what generation persists alongside the emitted
artifacts: the module's name and the fingerprint at generation time. -/
structure GenArtifacts where
  moduleName : String
  fingerprint : List (String × String)
deriving DecidableEq

/-- Modelled from the spec: running generation records the schema's
fingerprint. -/
def generate (s : Schema) : GenArtifacts := ⟨s.moduleName, fingerprintOf s⟩

/-- Modelled from the spec: the pre-build drift check — recompute the freshly
parsed schema's fingerprint and compare with the persisted one; on mismatch
fail with a diagnostic naming the out-of-date module. -/
def buildCheck (s : Schema) (persisted : GenArtifacts) : Except String Unit :=
  if fingerprintOf s = persisted.fingerprint then Except.ok ()
  else Except.error ("module " ++ persisted.moduleName
    ++ " is out of date; run codegen to regenerate bindings")

/-! ## Theorems -/

theorem DMap.insertOrAssign_insertOrAssign (m : DMap) (id d1 d2 : Nat) :
    DMap.insertOrAssign (DMap.insertOrAssign m id d1) id d2
      = DMap.insertOrAssign m id d2 := by
  funext k
  by_cases h : k = id <;> simp [DMap.insertOrAssign, h]

/-- C9: each delegate map of the native signal registry holds at most one
delegate per instance id per payload channel — registering again for an id
that already has a delegate replaces it instead of accumulating a second
one, and `unregisterDelegate(id)` removes the id's entry from every payload
channel's map, after which every emit variant for that id invokes no
delegate. -/
theorem signalManager_single_delegate_per_channel
    (s : SignalManager) (id d1 d2 dv dan das dao dob dv2 dan2 das2 dao2 dob2 : Nat) :
    (registerDelegate (registerDelegate s id d1) id d2 = registerDelegate s id d2) ∧
    (registerDelegateWithValue (registerDelegateWithValue s id dv dan das dao dob)
        id dv2 dan2 das2 dao2 dob2
      = registerDelegateWithValue s id dv2 dan2 das2 dao2 dob2) ∧
    (emit (registerDelegate s id d2) id = some d2) ∧
    ((unregisterDelegate s id).delegates_with_value id = none) ∧
    (emit (unregisterDelegate s id) id = none) ∧
    (emit_array_number (unregisterDelegate s id) id = none) ∧
    (emit_array_string (unregisterDelegate s id) id = none) ∧
    (emit_array_object (unregisterDelegate s id) id = none) ∧
    (emit_object (unregisterDelegate s id) id = none) := by
  refine ⟨?_, ?_, ?_, ?_, ?_, ?_, ?_, ?_, ?_⟩
  · simp [registerDelegate, DMap.insertOrAssign_insertOrAssign]
  · simp [registerDelegateWithValue, DMap.insertOrAssign_insertOrAssign]
  all_goals
    simp [registerDelegate, unregisterDelegate, emit, emit_array_number,
      emit_array_string, emit_array_object, emit_object,
      DMap.insertOrAssign, DMap.erase]

/-- C10: both `NativeModuleRegistry.get` and
`NativeModuleRegistry.getEnforcing` perform the JNI preparation step first —
on Android the dummy module named by surrounding the module name with
`__craby` and `_JNI_prepare__` is requested from the TurboModule registry
before the real lookup, on every other platform the preparation performs no
lookup — and the real lookup's result is returned unchanged. -/
theorem nativeModuleRegistry_prepareJNI_first (env : TurboEnv) (name : String) :
    ((NativeModuleRegistry.get env name).2
       = if env.os = "android"
         then ["__craby" ++ name ++ "_JNI_prepare__", name] else [name]) ∧
    ((NativeModuleRegistry.get env name).1 = (turboGet env name).1) ∧
    ((NativeModuleRegistry.getEnforcing env name).2
       = if env.os = "android"
         then ["__craby" ++ name ++ "_JNI_prepare__", name] else [name]) ∧
    ((NativeModuleRegistry.getEnforcing env name).1 = (turboGetEnforcing env name).1) := by
  by_cases h : env.os = "android" <;>
    simp [NativeModuleRegistry.get, NativeModuleRegistry.getEnforcing,
      prepareJNI, turboGet, turboGetEnforcing, h]

/-- C3 counterexample: with a delegate registered for instance id 1
(`cexManager`), `emit(1, "onDone")` invokes that delegate while the registry
lock is held — refuting the claim that the listener set is copied, the lock
released, and every listener invoked outside the lock. -/
theorem emit_invokes_listener_under_lock_cex :
    ¬ (invokesWhileLocked (emitTrace cexManager 1 "onDone") 0 = false) := by
  decide

/-- C3 (amended): `emit` acquires the registry lock, looks up the single
delegate registered for the instance id, and — when one is present — invokes
it while the lock is still held; the lock is released only after the
invocation returns, and exactly the registered delegate (at most one) is
invoked. -/
theorem emit_lock_held_during_invoke (s : SignalManager) (id : Nat) (name : String) :
    ((emitTrace s id name).head? = some EmitEv.acquire) ∧
    ((emitTrace s id name).getLast? = some EmitEv.release) ∧
    (invokesWhileLocked (emitTrace s id name) 0 = (s.delegates id).isSome) ∧
    ((emitTrace s id name).filter EmitEv.isInvokeEv
       = (s.delegates id).toList.map fun d => EmitEv.invoke d name) := by
  cases h : s.delegates id <;>
    simp [emitTrace, invokesWhileLocked, EmitEv.isInvokeEv, h, List.getLast?]

/-- C2: every PendingCall follows `Issued → Running → {Resolved | Rejected}`:
its trace starts with `issued, running`, has exactly three states, delivers
exactly one terminal event to the calling boundary, terminal states admit no
further transition, and the trace never contains both a Resolved and a
Rejected state. -/
theorem pendingCall_state_machine (r : ImplOutcome) :
    ((callTrace r).take 2 = [CallState.issued, CallState.running]) ∧
    ((callTrace r).length = 3) ∧
    ((deliveredTerminals r).length = 1) ∧
    ((callTrace r).all
       (fun s => !(CallState.isTerminal s) || (CallState.step s r).isNone) = true) ∧
    ((hasResolvedIn (callTrace r) && hasRejectedIn (callTrace r)) = false) := by
  cases r <;> exact ⟨rfl, rfl, rfl, rfl, rfl⟩

/-- C1: an unrecoverable fault in a synchronous method is caught exactly
once at the boundary and re-raised as a thrown host exception at the call
site; the same fault in a deferred-result method terminates the PendingCall
in the Rejected state and is delivered to the caller exactly once as a
normal (non-thrown) failure value; neither path lets the fault cross the
boundary unguarded or swallows it silently. -/
theorem fault_translation_sync_throws_async_rejects (m : String) :
    (runSyncMethod (ImplOutcome.fault m) = ⟨Except.error m, 1⟩) ∧
    ((runAsyncMethod (ImplOutcome.fault m)).thrownAtCaller = none) ∧
    ((runAsyncMethod (ImplOutcome.fault m)).delivered = [Except.error m]) ∧
    ((runAsyncMethod (ImplOutcome.fault m)).catches = 1) ∧
    ((callTrace (ImplOutcome.fault m)).getLast? = some (CallState.rejected m)) :=
  ⟨rfl, rfl, rfl, rfl, rfl⟩

/-- C4: with three listeners registered on one notification, a single emit
invokes all three exactly once each, in registration order; after disposing
the second listener, emitting again invokes only the remaining two. -/
theorem notification_fanout_three_listeners :
    (emitToListeners fanoutStep3.1 = [10, 20, 30]) ∧
    ((emitToListeners fanoutStep3.1).count 10 = 1) ∧
    ((emitToListeners fanoutStep3.1).count 20 = 1) ∧
    ((emitToListeners fanoutStep3.1).count 30 = 1) ∧
    (emitToListeners fanoutDisposed = [10, 30]) := by
  decide

/-- C7: a disposer returned by listener registration is idempotent —
invoking it a second time changes neither the listener registry nor any
later notification delivery. -/
theorem disposer_idempotent (r : ListenerReg) (tok : Nat) :
    (dispose (dispose r tok) tok = dispose r tok) ∧
    (emitToListeners (dispose (dispose r tok) tok) = emitToListeners (dispose r tok)) := by
  have h : dispose (dispose r tok) tok = dispose r tok := by
    simp [dispose, List.filter_filter]
  exact ⟨h, by rw [h]⟩

/-- If no collision is found, every two entries with distinct source names
have distinct canonical names. -/
theorem findCollision_eq_none :
    ∀ (pairs : List (String × String)), findCollision pairs = none →
      ∀ p ∈ pairs, ∀ q ∈ pairs, p.1 ≠ q.1 → p.2 ≠ q.2 := by
  intro pairs
  induction pairs with
  | nil =>
    intro _ p hp
    exact absurd hp (List.not_mem_nil p)
  | cons hd tl ih =>
    obtain ⟨hs, hn⟩ := hd
    intro h p hp q hq hne
    rw [findCollision] at h
    cases hfind : List.find? (fun p => p.2 == hn && p.1 != hs) tl with
    | some other =>
      rw [hfind] at h
      simp at h
    | none =>
      rw [hfind] at h
      have hnone : ∀ x ∈ tl, x.2 = hn → x.1 = hs := by
        intro x hx
        have hfx := List.find?_eq_none.mp hfind x hx
        simpa using hfx
      rcases List.mem_cons.mp hp with hp1 | hp1 <;>
        rcases List.mem_cons.mp hq with hq1 | hq1
      · subst hp1; subst hq1
        exact absurd rfl hne
      · subst hp1
        intro h2
        exact hne ((hnone q hq1 h2.symm).symm)
      · subst hq1
        intro h2
        exact hne (hnone p hp1 h2)
      · exact ih h p hp1 q hq1 hne

/-- C5: source identifiers normalize to a single canonical snake-case
identifier regardless of source casing — `getUserName`, `GetUserName` and
`get_user_name` all normalize to `get_user_name`; two distinct source names
normalizing to the same canonical identifier in one scope make resolution
fail with a collision diagnostic; successful resolution preserves each
original source-facing spelling next to its canonical identifier. -/
theorem naming_normalization_collision (names : List String) (a b : String)
    (ha : a ∈ names) (hb : b ∈ names) (hne : a ≠ b)
    (hcol : toSnakeCase a = toSnakeCase b) :
    (toSnakeCase "getUserName" = "get_user_name"
      ∧ toSnakeCase "GetUserName" = "get_user_name"
      ∧ toSnakeCase "get_user_name" = "get_user_name") ∧
    (∃ msg, resolveScope names = Except.error msg) ∧
    (∀ ns l, resolveScope ns = Except.ok l →
      l.map Prod.fst = ns ∧ l.map Prod.snd = ns.map toSnakeCase) := by
  refine ⟨⟨by decide, by decide, by decide⟩, ?_, ?_⟩
  · unfold resolveScope
    cases hfc : findCollision (names.map fun n => (n, toSnakeCase n)) with
    | some pr =>
      obtain ⟨x, y⟩ := pr
      exact ⟨_, rfl⟩
    | none =>
      exfalso
      have hdist := findCollision_eq_none _ hfc (a, toSnakeCase a)
        (List.mem_map_of_mem _ ha) (b, toSnakeCase b)
        (List.mem_map_of_mem _ hb) hne
      exact hdist hcol
  · intro ns l hok
    unfold resolveScope at hok
    cases hfc : findCollision (ns.map fun n => (n, toSnakeCase n)) with
    | some pr =>
      obtain ⟨x, y⟩ := pr
      rw [hfc] at hok
      simp at hok
    | none =>
      rw [hfc] at hok
      cases hok
      refine ⟨?_, ?_⟩
      · have h1 : (Prod.fst ∘ fun n : String => (n, toSnakeCase n))
            = (id : String → String) := rfl
        rw [List.map_map, h1, List.map_id]
      · rw [List.map_map]
        rfl

/-- C5 witness: the three spellings collide when declared in one scope. -/
theorem naming_normalization_collision_witness :
    (("getUserName" : String) ∈ ["getUserName", "GetUserName", "get_user_name"]) ∧
    (("GetUserName" : String) ∈ ["getUserName", "GetUserName", "get_user_name"]) ∧
    (("getUserName" : String) ≠ "GetUserName") ∧
    (toSnakeCase "getUserName" = toSnakeCase "GetUserName") ∧
    (∃ msg, resolveScope ["getUserName", "GetUserName", "get_user_name"]
        = Except.error msg) :=
  ⟨by decide, by decide, by decide, by decide,
   (naming_normalization_collision ["getUserName", "GetUserName", "get_user_name"]
      "getUserName" "GetUserName" (by decide) (by decide) (by decide) (by decide)).2.1⟩

/-- C6: decoding a numeric enum value that is not among the enum's declared
variant values, or a string value that is not among them, always fails with
a typed decoding error and never coerces the input to any variant. -/
theorem enum_decode_closed (nvars : List Int) (svars : List String)
    (n : Int) (v : String) (hn : n ∉ nvars) (hv : v ∉ svars) :
    (∃ msg, decodeNumericEnum nvars n = Except.error msg) ∧
    (∀ d, decodeNumericEnum nvars n ≠ Except.ok d) ∧
    (∃ msg, decodeStringEnum svars v = Except.error msg) ∧
    (∀ d, decodeStringEnum svars v ≠ Except.ok d) := by
  refine ⟨?_, ?_, ?_, ?_⟩ <;>
    simp [decodeNumericEnum, decodeStringEnum, hn, hv]

/-- C6 witness: the numeric enum with variants {0, 1} rejects -999 and the
string enum with variants {foo, bar, baz} rejects UNKNOWN. -/
theorem enum_decode_closed_witness :
    ((-999 : Int) ∉ [(0 : Int), 1]) ∧
    (("UNKNOWN" : String) ∉ ["foo", "bar", "baz"]) ∧
    (∃ msg, decodeNumericEnum [0, 1] (-999) = Except.error msg) ∧
    (∃ msg, decodeStringEnum ["foo", "bar", "baz"] "UNKNOWN" = Except.error msg) :=
  ⟨by decide, by decide,
   (enum_decode_closed [0, 1] ["foo", "bar", "baz"] (-999) "UNKNOWN"
      (by decide) (by decide)).1,
   (enum_decode_closed [0, 1] ["foo", "bar", "baz"] (-999) "UNKNOWN"
      (by decide) (by decide)).2.2.1⟩

/-- C8: the build fails with a diagnostic naming the out-of-date module iff
the freshly parsed schema's fingerprint differs from the persisted one;
mutating a schema without re-running generation makes the next build fail
with a drift diagnostic naming that module, and re-running generation
clears the failure. -/
theorem drift_guard_blocks_stale_build (s s2 : Schema) (p : GenArtifacts)
    (hmut : fingerprintOf s2 ≠ fingerprintOf s) :
    ((∃ msg, buildCheck s p = Except.error msg) ↔ fingerprintOf s ≠ p.fingerprint) ∧
    (∀ msg, buildCheck s p = Except.error msg →
      ∃ pre post, msg = pre ++ p.moduleName ++ post) ∧
    (∃ msg, buildCheck s2 (generate s) = Except.error msg
      ∧ ∃ pre post, msg = pre ++ s.moduleName ++ post) ∧
    (buildCheck s2 (generate s2) = Except.ok ()) ∧
    (buildCheck s (generate s) = Except.ok ()) := by
  refine ⟨?_, ?_, ?_, ?_, ?_⟩
  · by_cases h : fingerprintOf s = p.fingerprint <;> simp [buildCheck, h]
  · intro msg hmsg
    by_cases h : fingerprintOf s = p.fingerprint
    · simp [buildCheck, h] at hmsg
    · simp [buildCheck, h] at hmsg
      exact ⟨"module ", " is out of date; run codegen to regenerate bindings", hmsg.symm⟩
  · exact ⟨"module " ++ s.moduleName ++ " is out of date; run codegen to regenerate bindings",
      by simp [buildCheck, generate, hmut],
      "module ", " is out of date; run codegen to regenerate bindings", rfl⟩
  · simp [buildCheck, generate]
  · simp [buildCheck, generate]

/-- C8 witness: generating from one schema and then building against a
mutated schema of the same module fails with a drift diagnostic naming it. -/
theorem drift_guard_blocks_stale_build_witness :
    (fingerprintOf ⟨"CrabyTest", [("m", "v2")]⟩
       ≠ fingerprintOf ⟨"CrabyTest", [("m", "v1")]⟩) ∧
    (∃ msg, buildCheck ⟨"CrabyTest", [("m", "v2")]⟩
        (generate ⟨"CrabyTest", [("m", "v1")]⟩) = Except.error msg
      ∧ ∃ pre post, msg = pre ++ "CrabyTest" ++ post) :=
  ⟨by decide,
   (drift_guard_blocks_stale_build ⟨"CrabyTest", [("m", "v1")]⟩
      ⟨"CrabyTest", [("m", "v2")]⟩
      (generate ⟨"CrabyTest", [("m", "v1")]⟩) (by decide)).2.2.1⟩

end Craby
